import Mathlib

/-!
Verification development for the Gitping backend (Flask + MongoDB webhook
ingestion service).

The Python sources are shallowly embedded:
* inbound JSON payloads become the inductive type `Json`;
* Python dictionary access, truthiness, `str()`, `str.replace` and negative
  indexing become explicit Lean functions with Python semantics;
* exceptions become `Except PyErr`; the blanket `except Exception` handlers
  of the parsers become `pyCatch`;
* `GitHubEvent.__init__` (src/backend/src/models/github_event.py) becomes
  `GitHubEvent.init`, with the current UTC time passed in explicitly as a
  `PyDateTime`;
* the webhook route handler (src/backend/src/routes/webhook.py) becomes
  `github_webhook`, with the Mongo insert modelled as a `save` function
  argument returning the assigned id or `none` on failure;
* the display formatting (src/backend/src/routes/api.py) becomes
  `format_timestamp` / `format_event_message`, with `datetime.fromisoformat`
  modelled by `fromisoformat` and `strftime` of the fixed display pattern by
  `strftimeDisplay`.
-/

/-- Python values occurring in webhook payloads and stored documents:
`None`, booleans, integers, strings, lists and string-keyed dictionaries. -/
inductive Json where
  | null : Json
  | bool : Bool → Json
  | num : Int → Json
  | str : String → Json
  | arr : List Json → Json
  | obj : List (String × Json) → Json

/-- Python exception kinds that the embedded code can raise. -/
inductive PyErr where
  | attrError
  | keyError
  | indexError
  | typeError
  | valueError
deriving DecidableEq

/-- Computations that may raise a Python exception. -/
abbrev PyM (α : Type) := Except PyErr α

/-- Python truthiness (`bool(x)`): `None`, `False`, `0`, `""`, `[]` and
`{}` are falsy, everything else is truthy. -/
def Json.isTruthy : Json → Bool
  | .null => false
  | .bool b => b
  | .num n => n != 0
  | .str s => s != ""
  | .arr xs => !xs.isEmpty
  | .obj fs => !fs.isEmpty

/-- Python `x.get(key, default)`: defined on dictionaries only, raising
`AttributeError` on any other receiver. -/
def Json.dictGet (j : Json) (key : String) (d : Json) : PyM Json :=
  match j with
  | .obj fs => .ok ((fs.lookup key).getD d)
  | _ => .error .attrError

/-- Python `x[key]` on a dictionary: raises `KeyError` when the key is
absent and `TypeError` on a non-dictionary receiver. -/
def Json.item (j : Json) (key : String) : PyM Json :=
  match j with
  | .obj fs =>
      match fs.lookup key with
      | some v => .ok v
      | none => .error .keyError
  | _ => .error .typeError

/-- Python `x[-1]`: last element of a list, last character (as a one-character
string) of a string, `IndexError` when empty, `TypeError` otherwise. -/
def Json.indexLast : Json → PyM Json
  | .arr xs =>
      match xs.getLast? with
      | some x => .ok x
      | none => .error .indexError
  | .str s =>
      match s.toList.getLast? with
      | some c => .ok (.str (String.mk [c]))
      | none => .error .indexError
  | _ => .error .typeError

/-- Python `x == lit` for a string literal `lit`: only `str` values can
compare equal to a string. -/
def Json.eqStr (j : Json) (s : String) : Bool :=
  match j with
  | .str t => t == s
  | _ => false

/-- Python `x in l` for a list of string literals `l`: membership via `==`,
so only `str` values can be members. -/
def Json.inStrList (j : Json) (l : List String) : Bool :=
  match j with
  | .str t => l.contains t
  | _ => false

mutual

/-- Python `repr(x)` for `Json` values (string escaping inside containers is
not modelled; the repository never applies `str()` to containers). -/
def pyRepr : Json → String
  | .null => "None"
  | .bool true => "True"
  | .bool false => "False"
  | .num n => toString n
  | .str s => "'" ++ s ++ "'"
  | .arr xs => "[" ++ pyReprList xs ++ "]"
  | .obj fs => "\x7b" ++ pyReprObj fs ++ "\x7d"

/-- Comma-separated `repr`s of list elements. -/
def pyReprList : List Json → String
  | [] => ""
  | [x] => pyRepr x
  | x :: xs => pyRepr x ++ ", " ++ pyReprList xs

/-- Comma-separated `repr`s of dictionary entries. -/
def pyReprObj : List (String × Json) → String
  | [] => ""
  | [(k, v)] => "'" ++ k ++ "': " ++ pyRepr v
  | (k, v) :: fs => "'" ++ k ++ "': " ++ pyRepr v ++ ", " ++ pyReprObj fs

end

/-- Python `str(x)`: the string itself for `str` values, `repr` otherwise. -/
def pyStr : Json → String
  | .str s => s
  | j => pyRepr j

/-- Core of Python `s.replace(pat, rep)`: replaces every non-overlapping
occurrence of `pat`, scanning left to right. (Python's special behaviour for
an empty pattern is not modelled; the repository only replaces the non-empty
patterns `"refs/heads/"` and `"Z"`.) -/
def pyReplaceGo (pat rep : List Char) : Nat → List Char → List Char
  | _, [] => []
  | 0, l => l
  | fuel + 1, c :: rest =>
    if !pat.isEmpty && pat.isPrefixOf (c :: rest) then
      rep ++ pyReplaceGo pat rep fuel (rest.drop (pat.length - 1))
    else
      c :: pyReplaceGo pat rep fuel rest

/-- Python `s.replace(pat, rep)` on strings. Every step of `pyReplaceGo`
consumes at least one input character, so the input length is sufficient
fuel. -/
def pyReplace (s pat rep : String) : String :=
  String.mk (pyReplaceGo pat.toList rep.toList s.toList.length s.toList)

/-- A naive (timezone-less) Python `datetime` value. -/
structure PyDateTime where
  year : Nat
  month : Nat
  day : Nat
  hour : Nat
  minute : Nat
  second : Nat
  micro : Nat
deriving DecidableEq

/-- Decimal rendering of `n` left-padded with zeros to width `w`. -/
def padZeros (w : Nat) (n : Nat) : String :=
  let s := toString n
  String.mk (List.replicate (w - s.length) '0') ++ s

/-- Python `datetime.isoformat()`:
`YYYY-MM-DDTHH:MM:SS[.ffffff]`, the fractional part present only when the
microsecond field is nonzero. -/
def PyDateTime.isoformat (dt : PyDateTime) : String :=
  padZeros 4 dt.year ++ "-" ++ padZeros 2 dt.month ++ "-" ++ padZeros 2 dt.day ++
    "T" ++ padZeros 2 dt.hour ++ ":" ++ padZeros 2 dt.minute ++ ":" ++
    padZeros 2 dt.second ++
    (if dt.micro = 0 then "" else "." ++ padZeros 6 dt.micro)

/-- The `VALID_ACTIONS` class constant of `GitHubEvent`. -/
def VALID_ACTIONS : List String := ["PUSH", "PULL_REQUEST", "MERGE"]

/-- The canonical event record. Fields hold arbitrary Python values, as in
the source (Python does not enforce the `str` annotations). There is no `id`
field: `__init__` never assigns one, and `to_dict` never emits one. -/
structure GitHubEvent where
  request_id : Json
  author : Json
  action : Json
  from_branch : Json
  to_branch : Json
  timestamp : Json

/-- `GitHubEvent.__init__`: raises `ValueError` (the spec's
`ValidationError`) unless `action` is in `VALID_ACTIONS`; a falsy
`timestamp` argument (`None`, `""`, ...) is replaced by
`datetime.utcnow().isoformat()`, here `now.isoformat` for the ambient
current time `now`. Python defaults: `from_branch=None`, `timestamp=None`. -/
def GitHubEvent.init (now : PyDateTime) (request_id author action to_branch : Json)
    (from_branch timestamp : Json) : PyM GitHubEvent :=
  if action.inStrList VALID_ACTIONS then
    .ok { request_id := request_id, author := author, action := action,
          from_branch := from_branch, to_branch := to_branch,
          timestamp := if timestamp.isTruthy then timestamp else .str now.isoformat }
  else .error .valueError

/-- `GitHubEvent.to_dict`: the plain key-value storage representation. -/
def GitHubEvent.to_dict (e : GitHubEvent) : List (String × Json) :=
  [("request_id", e.request_id), ("author", e.author), ("action", e.action),
   ("from_branch", e.from_branch), ("to_branch", e.to_branch),
   ("timestamp", e.timestamp)]

/-- `GitHubEvent.from_dict`: reconstruction from a stored representation;
`data["..."]` accesses may raise `KeyError`, and the constructor may raise
`ValueError`. -/
def GitHubEvent.from_dict (now : PyDateTime) (data : Json) : PyM GitHubEvent := do
  let rid ← data.item "request_id"
  let author ← data.item "author"
  let action ← data.item "action"
  let toB ← data.item "to_branch"
  let fromB ← data.dictGet "from_branch" .null
  let ts ← data.dictGet "timestamp" .null
  GitHubEvent.init now rid author action toB fromB ts

/-- The `except Exception: return None` wrapper shared by all three payload
parsers: any raised exception becomes `None`. -/
def pyCatch (m : PyM (Option GitHubEvent)) : Option GitHubEvent :=
  match m with
  | .ok r => r
  | .error _ => none

/-- `parse_push_event` (src/backend/src/routes/webhook.py): empty or absent
`commits` yields `None`; otherwise the last commit is representative,
`author` defaults to `"Unknown"`, `to_branch` is `payload.ref` with
`str.replace("refs/heads/", "")` applied, `from_branch` is `None`. -/
def parse_push_event (now : PyDateTime) (payload : Json) : Option GitHubEvent :=
  pyCatch do
    let commits ← payload.dictGet "commits" (.arr [])
    if !commits.isTruthy then
      return none
    let latest ← commits.indexLast
    let rid ← latest.dictGet "id" (.str "")
    let pusher ← payload.dictGet "pusher" (.obj [])
    let author ← pusher.dictGet "name" (.str "Unknown")
    let ref ← payload.dictGet "ref" (.str "")
    let toB ← (match ref with
      | .str s => .ok (Json.str (pyReplace s "refs/heads/" ""))
      | _ => .error .attrError : PyM Json)
    let e ← GitHubEvent.init now rid author (.str "PUSH") toB .null .null
    return some e

/-- `parse_pull_request_event` (src/backend/src/routes/webhook.py):
`request_id` is `str(pull_request.id)`, `author` is `user.login` defaulting
to `"Unknown"`, branches from `base.ref` / `head.ref`. -/
def parse_pull_request_event (now : PyDateTime) (payload : Json) : Option GitHubEvent :=
  pyCatch do
    let pr ← payload.dictGet "pull_request" (.obj [])
    let idJ ← pr.dictGet "id" (.str "")
    let user ← pr.dictGet "user" (.obj [])
    let author ← user.dictGet "login" (.str "Unknown")
    let base ← pr.dictGet "base" (.obj [])
    let toB ← base.dictGet "ref" (.str "")
    let head ← pr.dictGet "head" (.obj [])
    let fromB ← head.dictGet "ref" (.str "")
    let e ← GitHubEvent.init now (.str (pyStr idJ)) author (.str "PULL_REQUEST") toB fromB .null
    return some e

/-- `parse_merge_event` (src/backend/src/routes/webhook.py): yields `None`
unless `pull_request.merged` is truthy; `author` is `merged_by.login`
defaulting to `"Unknown"`. -/
def parse_merge_event (now : PyDateTime) (payload : Json) : Option GitHubEvent :=
  pyCatch do
    let pr ← payload.dictGet "pull_request" (.obj [])
    let merged ← pr.dictGet "merged" (.bool false)
    if !merged.isTruthy then
      return none
    let idJ ← pr.dictGet "id" (.str "")
    let mergedBy ← pr.dictGet "merged_by" (.obj [])
    let author ← mergedBy.dictGet "login" (.str "Unknown")
    let base ← pr.dictGet "base" (.obj [])
    let toB ← base.dictGet "ref" (.str "")
    let head ← pr.dictGet "head" (.obj [])
    let fromB ← head.dictGet "ref" (.str "")
    let e ← GitHubEvent.init now (.str (pyStr idJ)) author (.str "MERGE") toB fromB .null
    return some e

/-- An HTTP response: the `jsonify`-ed body and the status code. -/
structure HttpResponse where
  body : Json
  status : Nat

/-- The `if event_type == ... / elif ...` routing chain of `github_webhook`,
selecting a parser (or none) from the `X-GitHub-Event` discriminator and,
for pull requests, the payload's `action` and `pull_request.merged`
fields. -/
def route (event_type : Option String) (now : PyDateTime) (payload : Json) :
    PyM (Option GitHubEvent) :=
  if event_type = some "push" then
    .ok (parse_push_event now payload)
  else if event_type = some "pull_request" then do
    let action ← payload.dictGet "action" .null
    if action.eqStr "opened" then
      pure (parse_pull_request_event now payload)
    else if action.eqStr "closed" then do
      let pr ← payload.dictGet "pull_request" (.obj [])
      let merged ← pr.dictGet "merged" (.bool false)
      if merged.isTruthy then
        pure (parse_merge_event now payload)
      else
        pure none
    else
      pure none
  else
    .ok none

/-- `str(event_type)` as used in the f-string of the ignored response
(the header may be absent, in which case Python prints `None`). -/
def eventTypeStr : Option String → String
  | some s => s
  | none => "None"

/-- `github_webhook` (src/backend/src/routes/webhook.py): the POST /webhook
handler. `payload` is the result of `request.get_json()` (`none` when no
JSON body could be read); `save` models `GitHubEvent.save`, returning the
assigned Mongo id or `none` on persistence failure. The outer
`except Exception` produces the 500 response. -/
def github_webhook (event_type : Option String) (payload : Option Json)
    (now : PyDateTime) (save : GitHubEvent → Option String) : HttpResponse :=
  match (do
    let p := payload.getD .null
    if !p.isTruthy then
      pure ⟨.obj [("error", .str "No payload received")], 400⟩
    else do
      let ghe ← route event_type now p
      match ghe with
      | some e =>
        match save e with
        | some eid =>
            pure ⟨.obj [("status", .str "success"),
                        ("message", .str "Event processed successfully"),
                        ("event_id", .str eid)], 200⟩
        | none => pure ⟨.obj [("error", .str "Failed to save event")], 500⟩
      | none =>
          pure ⟨.obj [("status", .str "ignored"),
                      ("message", .str ("Event type " ++ eventTypeStr event_type ++
                        " not processed"))], 200⟩
    : PyM HttpResponse) with
  | .ok r => r
  | .error _ => ⟨.obj [("error", .str "Internal server error")], 500⟩

/-- Numeric value of a list of decimal digit characters. -/
def digitsToNat (cs : List Char) : Nat :=
  cs.foldl (fun a c => a * 10 + (c.toNat - 48)) 0

/-- Reads exactly two decimal digits from the front of the character list. -/
def parseTwoDigits : List Char → Option (Nat × List Char)
  | a :: b :: rest =>
      if a.isDigit && b.isDigit then some (digitsToNat [a, b], rest) else none
  | _ => none

/-- The `HH[:MM[:SS[.fff|.ffffff]]]` fragment of `datetime.fromisoformat`
(CPython's `_parse_hh_mm_ss_ff`): yields hour, minute, second, microsecond
and the unconsumed remainder. -/
def parseTimePart (cs : List Char) : Option (Nat × Nat × Nat × Nat × List Char) :=
  match parseTwoDigits cs with
  | none => none
  | some (h, cs1) =>
    match cs1 with
    | ':' :: cs2 =>
      match parseTwoDigits cs2 with
      | none => none
      | some (mi, cs3) =>
        match cs3 with
        | ':' :: cs4 =>
          match parseTwoDigits cs4 with
          | none => none
          | some (s, cs5) =>
            match cs5 with
            | '.' :: cs6 =>
              let ds := cs6.takeWhile Char.isDigit
              let rest := cs6.drop ds.length
              if ds.length = 3 then some (h, mi, s, digitsToNat ds * 1000, rest)
              else if ds.length = 6 then some (h, mi, s, digitsToNat ds, rest)
              else none
            | _ => some (h, mi, s, 0, cs5)
        | _ => some (h, mi, 0, 0, cs3)
    | _ => some (h, 0, 0, 0, cs1)

/-- A UTC-offset string after its sign: `HH:MM[:SS[.ffffff]]` (lengths 5, 8
or 15, as CPython checks), denoting an offset strictly below 24 hours. -/
def validOffset (cs : List Char) : Bool :=
  (cs.length = 5 || cs.length = 8 || cs.length = 15) &&
  match parseTimePart cs with
  | some (h, mi, s, _micro, []) => h * 3600 + mi * 60 + s < 86400
  | _ => false

/-- Length of each month, as `datetime`'s calendar (proleptic Gregorian). -/
def daysInMonth (year month : Nat) : Nat :=
  if month = 2 then
    if year % 4 = 0 && (year % 100 != 0 || year % 400 = 0) then 29 else 28
  else if month = 4 || month = 6 || month = 9 || month = 11 then 30
  else 31

/-- The range checks of the `datetime` constructor. -/
def validDateTime (y mo d h mi s : Nat) : Bool :=
  1 ≤ y && y ≤ 9999 && 1 ≤ mo && mo ≤ 12 && 1 ≤ d && d ≤ daysInMonth y mo &&
    h ≤ 23 && mi ≤ 59 && s ≤ 59

/-- `datetime.fromisoformat`: `YYYY-MM-DD[<sep>HH[:MM[:SS[.fff|.ffffff]]]
[(+|-)HH:MM[:SS[.ffffff]]]]` with any single separator character, validated
by the `datetime` constructor; `none` models the raised `ValueError`. The
offset, when present, is kept by CPython as a `tzinfo` but does not shift
the stored fields, and the display format below never consults it, so it is
only validated here, not stored. -/
def fromisoformat (str : String) : Option PyDateTime :=
  match str.toList with
  | y1 :: y2 :: y3 :: y4 :: s1 :: m1 :: m2 :: s2 :: d1 :: d2 :: rest =>
    if y1.isDigit && y2.isDigit && y3.isDigit && y4.isDigit && s1 == '-' &&
        m1.isDigit && m2.isDigit && s2 == '-' && d1.isDigit && d2.isDigit then
      let y := digitsToNat [y1, y2, y3, y4]
      let mo := digitsToNat [m1, m2]
      let d := digitsToNat [d1, d2]
      match rest with
      | [] => if validDateTime y mo d 0 0 0 then some ⟨y, mo, d, 0, 0, 0, 0⟩ else none
      | _sep :: timeCs =>
        match parseTimePart timeCs with
        | none => none
        | some (h, mi, s, micro, remaining) =>
          let offsetOk :=
            match remaining with
            | [] => true
            | c :: offCs => (c == '+' || c == '-') && validOffset offCs
          if offsetOk && validDateTime y mo d h mi s then
            some ⟨y, mo, d, h, mi, s, micro⟩
          else none
    else none
  | _ => none

/-- `%B`: full month name. -/
def monthName : Nat → String
  | 1 => "January"
  | 2 => "February"
  | 3 => "March"
  | 4 => "April"
  | 5 => "May"
  | 6 => "June"
  | 7 => "July"
  | 8 => "August"
  | 9 => "September"
  | 10 => "October"
  | 11 => "November"
  | 12 => "December"
  | _ => ""

/-- `dt.strftime('%d %B %Y - %I:%M %p UTC')`: zero-padded day, full month
name, year, zero-padded 12-hour clock with AM/PM, and the literal `UTC`. -/
def strftimeDisplay (dt : PyDateTime) : String :=
  let h12 := if dt.hour % 12 = 0 then 12 else dt.hour % 12
  let ampm := if dt.hour < 12 then "AM" else "PM"
  padZeros 2 dt.day ++ " " ++ monthName dt.month ++ " " ++ padZeros 4 dt.year ++
    " - " ++ padZeros 2 h12 ++ ":" ++ padZeros 2 dt.minute ++ " " ++ ampm ++ " UTC"

/-- `format_timestamp` (src/backend/src/routes/api.py): replaces every `Z`
with `+00:00`, parses with `fromisoformat` and renders for display; on any
exception (parse failure, or `.replace` on a non-string) returns the input
unchanged. -/
def format_timestamp (j : Json) : Json :=
  match j with
  | .str s =>
    match fromisoformat (pyReplace s "Z" "+00:00") with
    | some dt => .str (strftimeDisplay dt)
    | none => .str s
  | _ => j

/-- `format_event_message` (src/backend/src/routes/api.py): builds the
per-action display message from a stored event document. -/
def format_event_message (event : List (String × Json)) : String :=
  let author := (event.lookup "author").getD (.str "Unknown")
  let action := (event.lookup "action").getD (.str "")
  let to_branch := (event.lookup "to_branch").getD (.str "")
  let from_branch := (event.lookup "from_branch").getD (.str "")
  let timestamp := format_timestamp ((event.lookup "timestamp").getD (.str ""))
  if action.eqStr "PUSH" then
    "\"" ++ pyStr author ++ "\" pushed to \"" ++ pyStr to_branch ++ "\" on " ++
      pyStr timestamp
  else if action.eqStr "PULL_REQUEST" then
    "\"" ++ pyStr author ++ "\" submitted a pull request from \"" ++
      pyStr from_branch ++ "\" to \"" ++ pyStr to_branch ++ "\" on " ++ pyStr timestamp
  else if action.eqStr "MERGE" then
    "\"" ++ pyStr author ++ "\" merged branch \"" ++ pyStr from_branch ++
      "\" to \"" ++ pyStr to_branch ++ "\" on " ++ pyStr timestamp
  else
    "\"" ++ pyStr author ++ "\" performed " ++ pyStr action ++ " on " ++ pyStr timestamp

/-- The limit computation of `get_events` (src/backend/src/routes/api.py
lines 40-41): `request.args.get('limit', 50, type=int)` yields 50 when the
parameter is absent (Flask also maps an unparseable value to the default),
then `min(limit, 100)` caps from above; there is no lower bound. -/
def get_events_limit (requested : Option Int) : Int :=
  min (requested.getD 50) 100

/-- Shape test used to state the malformed-payload clauses: `true` exactly
on Python dictionaries. -/
def Json.isObj : Json → Bool
  | .obj _ => true
  | _ => false

/-- `datetime.isoformat()` output is never the empty string (it always
contains the two date separators). -/
theorem PyDateTime.isoformat_ne_empty (dt : PyDateTime) : dt.isoformat ≠ "" := by
  intro h
  have h2 := congrArg String.length h
  simp only [PyDateTime.isoformat, String.length_append] at h2
  simp only [show ("-" : String).length = 1 from rfl, show ("T" : String).length = 1 from rfl,
    show (":" : String).length = 1 from rfl, show ("" : String).length = 0 from rfl] at h2
  omega

/-- Python membership of a string value in a list of strings is list
containment. -/
theorem inStrList_str (s : String) (l : List String) :
    Json.inStrList (.str s) l = l.contains s := rfl

/-- The timestamp field assigned by the constructor is always truthy: either
the truthy supplied value or the non-empty `isoformat` of the current time. -/
theorem init_timestamp_truthy (now : PyDateTime) (ts : Json) :
    (if ts.isTruthy then ts else Json.str now.isoformat).isTruthy = true := by
  cases hts : ts.isTruthy with
  | true => simp [hts]
  | false => simp [hts, Json.isTruthy, bne_iff_ne, PyDateTime.isoformat_ne_empty now]

/-- A list ending in an appended element is truthy. -/
theorem arr_concat_truthy (cs : List Json) (x : Json) :
    (Json.arr (cs ++ [x])).isTruthy = true := by
  cases cs <;> rfl

/-- `commits[-1]` on a list ending in an appended element yields that
element. -/
theorem indexLast_concat (cs : List Json) (x : Json) :
    Json.indexLast (.arr (cs ++ [x])) = .ok x := by
  simp [Json.indexLast, List.getLast?_concat]

/-- C1: constructing an Event succeeds for every action among `PUSH`,
`PULL_REQUEST`, `MERGE` and fails with the validation error (`ValueError`,
the spec's `ValidationError`) for every other string action, all other
fields arbitrary. -/
theorem C1_action_validation (now : PyDateTime) (rid author toB fromB ts : Json) (s : String) :
    (s ∈ VALID_ACTIONS →
      (GitHubEvent.init now rid author (.str s) toB fromB ts).isOk = true) ∧
    (s ∉ VALID_ACTIONS →
      GitHubEvent.init now rid author (.str s) toB fromB ts = .error .valueError) := by
  constructor
  · intro h
    have hc : VALID_ACTIONS.contains s = true := by
      simp [VALID_ACTIONS] at h ⊢
      rcases h with rfl | rfl | rfl <;> decide
    simp [GitHubEvent.init, inStrList_str, hc, h, Except.isOk, Except.toBool]
  · intro h
    have hc : VALID_ACTIONS.contains s = false := by
      simp [VALID_ACTIONS] at h ⊢; tauto
    simp [GitHubEvent.init, inStrList_str, hc, h]

/-- C1 witness: construction succeeds at `PUSH` and fails at `DEPLOY`. -/
theorem C1_witness :
    (GitHubEvent.init ⟨2024, 3, 7, 14, 30, 0, 0⟩ (.str "r") (.str "a") (.str "PUSH")
        (.str "main") .null .null).isOk = true ∧
    GitHubEvent.init ⟨2024, 3, 7, 14, 30, 0, 0⟩ (.str "r") (.str "a") (.str "DEPLOY")
        (.str "main") .null .null = .error .valueError :=
  ⟨(C1_action_validation ⟨2024, 3, 7, 14, 30, 0, 0⟩ (.str "r") (.str "a") (.str "main")
      .null .null "PUSH").1 (by decide),
   (C1_action_validation ⟨2024, 3, 7, 14, 30, 0, 0⟩ (.str "r") (.str "a") (.str "main")
      .null .null "DEPLOY").2 (by decide)⟩

/-- C2: for every constructed Event, `from_dict (to_dict e)` reconstructs a
record equal to `e` on every field (even under a different reconstruction
time), and the storage form contains no id key at all, so the id clause of
the round-trip holds vacuously. -/
theorem C2_roundtrip (now now2 : PyDateTime) (rid author action toB fromB ts : Json)
    (e : GitHubEvent) (h : GitHubEvent.init now rid author action toB fromB ts = .ok e) :
    GitHubEvent.from_dict now2 (.obj e.to_dict) = .ok e ∧
    e.to_dict.lookup "_id" = none ∧ e.to_dict.lookup "id" = none := by
  unfold GitHubEvent.init at h
  cases hv : Json.inStrList action VALID_ACTIONS with
  | false => simp [hv] at h
  | true =>
    simp only [hv, if_true] at h
    rw [Except.ok.injEq] at h
    subst h
    refine ⟨?_, rfl, rfl⟩
    simp [GitHubEvent.from_dict, GitHubEvent.to_dict, Json.item, Json.dictGet,
      GitHubEvent.init, hv, init_timestamp_truthy, List.lookup, Bind.bind, Except.bind]

/-- C2 witness: round trip of a concrete constructed event, reconstructed at
a different current time. -/
theorem C2_witness :
    GitHubEvent.from_dict ⟨2030, 1, 1, 0, 0, 0, 0⟩
        (.obj (GitHubEvent.to_dict ⟨.str "r", .str "a", .str "PUSH", .null, .str "main",
          .str "2024-03-07T14:30:00"⟩)) =
      .ok ⟨.str "r", .str "a", .str "PUSH", .null, .str "main",
        .str "2024-03-07T14:30:00"⟩ ∧
    (GitHubEvent.to_dict ⟨.str "r", .str "a", .str "PUSH", .null, .str "main",
      .str "2024-03-07T14:30:00"⟩).lookup "_id" = none ∧
    (GitHubEvent.to_dict ⟨.str "r", .str "a", .str "PUSH", .null, .str "main",
      .str "2024-03-07T14:30:00"⟩).lookup "id" = none :=
  C2_roundtrip ⟨2024, 3, 7, 14, 30, 0, 0⟩ ⟨2030, 1, 1, 0, 0, 0, 0⟩ (.str "r") (.str "a")
    (.str "PUSH") (.str "main") .null .null
    ⟨.str "r", .str "a", .str "PUSH", .null, .str "main", .str "2024-03-07T14:30:00"⟩ rfl

/-- C3: on a `pull_request`/`closed` payload with `merged` true, the merge
parser produces the MERGE event with `request_id = str(pull_request.id)`,
`author = merged_by.login` (default `Unknown` when the key is absent),
`to_branch = base.ref`, `from_branch = head.ref`; with `merged` false or
absent the dispatcher reports the ignored outcome and no event. -/
theorem C3_merge (now : PyDateTime) (idJ login baseRef headRef : Json)
    (save : GitHubEvent → Option String) :
    (parse_merge_event now (.obj [("action", .str "closed"),
        ("pull_request", .obj [("id", idJ), ("merged", .bool true),
          ("merged_by", .obj [("login", login)]), ("base", .obj [("ref", baseRef)]),
          ("head", .obj [("ref", headRef)])])]) =
      some ⟨.str (pyStr idJ), login, .str "MERGE", headRef, baseRef, .str now.isoformat⟩) ∧
    (parse_merge_event now (.obj [("action", .str "closed"),
        ("pull_request", .obj [("id", idJ), ("merged", .bool true),
          ("base", .obj [("ref", baseRef)]), ("head", .obj [("ref", headRef)])])]) =
      some ⟨.str (pyStr idJ), .str "Unknown", .str "MERGE", headRef, baseRef,
        .str now.isoformat⟩) ∧
    (github_webhook (some "pull_request") (some (.obj [("action", .str "closed"),
        ("pull_request", .obj [("id", idJ), ("merged", .bool false),
          ("merged_by", .obj [("login", login)]), ("base", .obj [("ref", baseRef)]),
          ("head", .obj [("ref", headRef)])])])) now save =
      ⟨.obj [("status", .str "ignored"),
             ("message", .str "Event type pull_request not processed")], 200⟩) ∧
    (github_webhook (some "pull_request") (some (.obj [("action", .str "closed"),
        ("pull_request", .obj [("id", idJ),
          ("merged_by", .obj [("login", login)]), ("base", .obj [("ref", baseRef)]),
          ("head", .obj [("ref", headRef)])])])) now save =
      ⟨.obj [("status", .str "ignored"),
             ("message", .str "Event type pull_request not processed")], 200⟩) :=
  ⟨rfl, rfl, rfl, rfl⟩

/-- C4: the push parser yields no event when the commit sequence is empty or
absent; otherwise it takes the id of the last commit as `request_id`,
`pusher.name` (default `Unknown` when absent) as `author`, action `PUSH` and
`from_branch = None`. -/
theorem C4_push (now : PyDateTime) (cs : List Json) (idJ nameJ : Json) (ref : String)
    (rest : List (String × Json)) :
    (parse_push_event now (.obj (("commits", .arr []) :: rest)) = none) ∧
    (parse_push_event now (.obj [("ref", .str ref)]) = none) ∧
    (parse_push_event now (.obj [("commits", .arr (cs ++ [.obj [("id", idJ)]])),
        ("pusher", .obj [("name", nameJ)]), ("ref", .str ref)]) =
      some ⟨idJ, nameJ, .str "PUSH", .null, .str (pyReplace ref "refs/heads/" ""),
        .str now.isoformat⟩) ∧
    (parse_push_event now (.obj [("commits", .arr (cs ++ [.obj [("id", idJ)]])),
        ("ref", .str ref)]) =
      some ⟨idJ, .str "Unknown", .str "PUSH", .null, .str (pyReplace ref "refs/heads/" ""),
        .str now.isoformat⟩) := by
  refine ⟨rfl, rfl, ?_, ?_⟩ <;>
    simp [parse_push_event, pyCatch, Json.dictGet, arr_concat_truthy, indexLast_concat,
      GitHubEvent.init, Json.inStrList, VALID_ACTIONS, Bind.bind, Except.bind,
      Pure.pure, Except.pure, Json.isTruthy, List.lookup, pyReplace]

/-- C5 counterexample: with `ref = "xrefs/heads/y"` the prefix
`refs/heads/` is absent at the start, so the claim predicts `to_branch`
unchanged, but the code's `str.replace` removes the inner occurrence and
produces `"xy"`. -/
theorem C5_counterexample :
    (parse_push_event ⟨2024, 3, 7, 14, 30, 0, 0⟩
        (.obj [("commits", .arr [.obj [("id", .str "a")]]),
               ("ref", .str "xrefs/heads/y")])).map GitHubEvent.to_branch =
      some (.str "xy") ∧
    Json.str "xy" ≠ Json.str "xrefs/heads/y" := by
  refine ⟨rfl, ?_⟩
  intro h
  injection h with h2
  exact absurd h2 (by decide)

/-- C5 amended: the push parser's `to_branch` is `payload.ref` with every
non-overlapping occurrence of the substring `refs/heads/` removed left to
right (so a leading prefix is stripped, but occurrences elsewhere in the
string are removed as well, and a string without the substring is
unchanged). -/
theorem C5_amended (now : PyDateTime) (cs : List Json) (idJ : Json) (ref : String) :
    ((parse_push_event now (.obj [("commits", .arr (cs ++ [.obj [("id", idJ)]])),
        ("ref", .str ref)])).map GitHubEvent.to_branch =
      some (.str (pyReplace ref "refs/heads/" ""))) ∧
    pyReplace "refs/heads/main" "refs/heads/" "" = "main" ∧
    pyReplace "xrefs/heads/y" "refs/heads/" "" = "xy" ∧
    pyReplace "a/refs/heads/b/refs/heads/c" "refs/heads/" "" = "a/b/c" := by
  refine ⟨?_, by decide, by decide, by decide⟩
  simp [parse_push_event, pyCatch, Json.dictGet, arr_concat_truthy, indexLast_concat,
    GitHubEvent.init, Json.inStrList, VALID_ACTIONS, Bind.bind, Except.bind,
    Pure.pure, Except.pure, Json.isTruthy, List.lookup, pyReplace]

/-- C6: on a `pull_request`/`opened` payload the dispatcher routes to the
pull-request parser, which yields the PULL_REQUEST event with
`request_id = str(pull_request.id)`, `author = user.login` — defaulting to
`Unknown` when the `user` key or the `login` key is absent — with
`to_branch = base.ref` and `from_branch = head.ref`; on a payload of
malformed shape (a non-dictionary where a dictionary is expected) the
parser yields `None` rather than propagating an error. -/
theorem C6_pr_opened (now : PyDateTime) (idJ login baseRef headRef j : Json) :
    (route (some "pull_request") now (.obj [("action", .str "opened"),
        ("pull_request", .obj [("id", idJ), ("user", .obj [("login", login)]),
          ("base", .obj [("ref", baseRef)]), ("head", .obj [("ref", headRef)])])]) =
      .ok (parse_pull_request_event now (.obj [("action", .str "opened"),
        ("pull_request", .obj [("id", idJ), ("user", .obj [("login", login)]),
          ("base", .obj [("ref", baseRef)]), ("head", .obj [("ref", headRef)])])]))) ∧
    (parse_pull_request_event now (.obj [("action", .str "opened"),
        ("pull_request", .obj [("id", idJ), ("user", .obj [("login", login)]),
          ("base", .obj [("ref", baseRef)]), ("head", .obj [("ref", headRef)])])]) =
      some ⟨.str (pyStr idJ), login, .str "PULL_REQUEST", headRef, baseRef,
        .str now.isoformat⟩) ∧
    (parse_pull_request_event now (.obj [("action", .str "opened"),
        ("pull_request", .obj [("id", idJ),
          ("base", .obj [("ref", baseRef)]), ("head", .obj [("ref", headRef)])])]) =
      some ⟨.str (pyStr idJ), .str "Unknown", .str "PULL_REQUEST", headRef, baseRef,
        .str now.isoformat⟩) ∧
    (parse_pull_request_event now (.obj [("action", .str "opened"),
        ("pull_request", .obj [("id", idJ), ("user", .obj []),
          ("base", .obj [("ref", baseRef)]), ("head", .obj [("ref", headRef)])])]) =
      some ⟨.str (pyStr idJ), .str "Unknown", .str "PULL_REQUEST", headRef, baseRef,
        .str now.isoformat⟩) ∧
    (j.isObj = false → parse_pull_request_event now j = none) ∧
    (j.isObj = false → parse_pull_request_event now (.obj [("pull_request", j)]) = none) := by
  refine ⟨rfl, rfl, rfl, rfl, ?_, ?_⟩ <;>
    (intro h; cases j <;> first
      | rfl
      | simp [Json.isObj] at h)

/-- C6 witness: the spec's example payload (id 7, user bob, base main, head
feat), the same payload without a `user` key yielding the `Unknown` author
default, and a malformed payload whose `pull_request` is a string. -/
theorem C6_witness :
    parse_pull_request_event ⟨2024, 3, 7, 14, 30, 0, 0⟩ (.obj [("action", .str "opened"),
        ("pull_request", .obj [("id", .num 7), ("user", .obj [("login", .str "bob")]),
          ("base", .obj [("ref", .str "main")]), ("head", .obj [("ref", .str "feat")])])]) =
      some ⟨.str "7", .str "bob", .str "PULL_REQUEST", .str "feat", .str "main",
        .str "2024-03-07T14:30:00"⟩ ∧
    parse_pull_request_event ⟨2024, 3, 7, 14, 30, 0, 0⟩ (.obj [("action", .str "opened"),
        ("pull_request", .obj [("id", .num 7),
          ("base", .obj [("ref", .str "main")]), ("head", .obj [("ref", .str "feat")])])]) =
      some ⟨.str "7", .str "Unknown", .str "PULL_REQUEST", .str "feat", .str "main",
        .str "2024-03-07T14:30:00"⟩ ∧
    parse_pull_request_event ⟨2024, 3, 7, 14, 30, 0, 0⟩
        (.obj [("pull_request", .str "oops")]) = none :=
  ⟨(C6_pr_opened ⟨2024, 3, 7, 14, 30, 0, 0⟩ (.num 7) (.str "bob") (.str "main")
      (.str "feat") (.str "oops")).2.1,
   (C6_pr_opened ⟨2024, 3, 7, 14, 30, 0, 0⟩ (.num 7) (.str "bob") (.str "main")
      (.str "feat") (.str "oops")).2.2.1,
   (C6_pr_opened ⟨2024, 3, 7, 14, 30, 0, 0⟩ (.num 7) (.str "bob") (.str "main")
      (.str "feat") (.str "oops")).2.2.2.2.2 rfl⟩

/-- C7 counterexample: the code computes `min(limit, 100)` only, so a
requested limit of -5 is passed through as -5, where the claim requires it
to be raised to 0. -/
theorem C7_counterexample :
    get_events_limit (some (-5)) = -5 ∧ (-5 : Int) ≠ 0 := by
  refine ⟨by decide, by decide⟩

/-- C7 amended: `list_events` caps the requested limit only from above at
100 (defaulting to 50 when no limit is given); `limit=1000` queries with
100, and a negative requested limit is passed to the store query unchanged,
not raised to 0. -/
theorem C7_amended (n : Int) :
    get_events_limit none = 50 ∧
    get_events_limit (some n) = min n 100 ∧
    get_events_limit (some 1000) = 100 ∧
    get_events_limit (some (-7)) = -7 := by
  refine ⟨by decide, rfl, by decide, by decide⟩

/-- C8: dispatcher outcomes — a missing or falsy payload body is rejected
with the 400 response before any routing; a request whose selected parser
returns `None`, and any unrecognized (or absent) discriminator, gets the
ignored outcome with status 200; a successfully parsed event is handed to
`save` and the assigned id is reported with status 200; a persistence
failure yields the 500 failure response, distinct from ignored. -/
theorem C8_dispatch (now : PyDateTime) (save : GitHubEvent → Option String)
    (et : Option String) (p : Json) (e : GitHubEvent) (eid : String) (s : String) :
    (github_webhook et none now save =
      ⟨.obj [("error", .str "No payload received")], 400⟩) ∧
    (p.isTruthy = false → github_webhook et (some p) now save =
      ⟨.obj [("error", .str "No payload received")], 400⟩) ∧
    (p.isTruthy = true → s ≠ "push" → s ≠ "pull_request" →
      github_webhook (some s) (some p) now save =
        ⟨.obj [("status", .str "ignored"),
               ("message", .str ("Event type " ++ s ++ " not processed"))], 200⟩) ∧
    (p.isTruthy = true → github_webhook none (some p) now save =
      ⟨.obj [("status", .str "ignored"),
             ("message", .str "Event type None not processed")], 200⟩) ∧
    (p.isTruthy = true → parse_push_event now p = none →
      github_webhook (some "push") (some p) now save =
        ⟨.obj [("status", .str "ignored"),
               ("message", .str "Event type push not processed")], 200⟩) ∧
    (p.isTruthy = true → parse_push_event now p = some e → save e = some eid →
      github_webhook (some "push") (some p) now save =
        ⟨.obj [("status", .str "success"),
               ("message", .str "Event processed successfully"),
               ("event_id", .str eid)], 200⟩) ∧
    (p.isTruthy = true → parse_push_event now p = some e → save e = none →
      github_webhook (some "push") (some p) now save =
        ⟨.obj [("error", .str "Failed to save event")], 500⟩) := by
  refine ⟨rfl, ?_, ?_, ?_, ?_, ?_, ?_⟩
  · intro h
    simp [github_webhook, h, Bind.bind, Except.bind, Pure.pure, Except.pure]
  · intro h h1 h2
    simp [github_webhook, route, h, h1, h2, eventTypeStr,
      Bind.bind, Except.bind, Pure.pure, Except.pure]
  · intro h
    simp [github_webhook, route, h, eventTypeStr,
      Bind.bind, Except.bind, Pure.pure, Except.pure]
  · intro h hp
    simp [github_webhook, route, h, hp, eventTypeStr,
      Bind.bind, Except.bind, Pure.pure, Except.pure]
  · intro h hp hs
    simp [github_webhook, route, h, hp, hs,
      Bind.bind, Except.bind, Pure.pure, Except.pure]
  · intro h hp hs
    simp [github_webhook, route, h, hp, hs,
      Bind.bind, Except.bind, Pure.pure, Except.pure]

/-- C8 witness: concrete requests exercising every outcome — missing body,
falsy body, unrecognized and absent discriminators, push body the parser
ignores, push body saved successfully, and the same body with a failing
save. -/
theorem C8_witness :
    (github_webhook (some "push") none ⟨2024, 3, 7, 14, 30, 0, 0⟩ (fun _ => some "deadbeef") =
      ⟨.obj [("error", .str "No payload received")], 400⟩) ∧
    (github_webhook (some "push") (some (.obj [])) ⟨2024, 3, 7, 14, 30, 0, 0⟩
        (fun _ => some "deadbeef") =
      ⟨.obj [("error", .str "No payload received")], 400⟩) ∧
    (github_webhook (some "star") (some (.obj [("zen", .str "keep it simple")]))
        ⟨2024, 3, 7, 14, 30, 0, 0⟩ (fun _ => some "deadbeef") =
      ⟨.obj [("status", .str "ignored"),
             ("message", .str "Event type star not processed")], 200⟩) ∧
    (github_webhook none (some (.obj [("zen", .str "keep it simple")]))
        ⟨2024, 3, 7, 14, 30, 0, 0⟩ (fun _ => some "deadbeef") =
      ⟨.obj [("status", .str "ignored"),
             ("message", .str "Event type None not processed")], 200⟩) ∧
    (github_webhook (some "push") (some (.obj [("zen", .str "keep it simple")]))
        ⟨2024, 3, 7, 14, 30, 0, 0⟩ (fun _ => some "deadbeef") =
      ⟨.obj [("status", .str "ignored"),
             ("message", .str "Event type push not processed")], 200⟩) ∧
    (github_webhook (some "push")
        (some (.obj [("commits", .arr [.obj [("id", .str "c1")]]),
          ("ref", .str "refs/heads/main"), ("pusher", .obj [("name", .str "alice")])]))
        ⟨2024, 3, 7, 14, 30, 0, 0⟩ (fun _ => some "deadbeef") =
      ⟨.obj [("status", .str "success"),
             ("message", .str "Event processed successfully"),
             ("event_id", .str "deadbeef")], 200⟩) ∧
    (github_webhook (some "push")
        (some (.obj [("commits", .arr [.obj [("id", .str "c1")]]),
          ("ref", .str "refs/heads/main"), ("pusher", .obj [("name", .str "alice")])]))
        ⟨2024, 3, 7, 14, 30, 0, 0⟩ (fun _ => none) =
      ⟨.obj [("error", .str "Failed to save event")], 500⟩) :=
  ⟨(C8_dispatch ⟨2024, 3, 7, 14, 30, 0, 0⟩ (fun _ => some "deadbeef") (some "push")
      .null ⟨.null, .null, .null, .null, .null, .null⟩ "deadbeef" "star").1,
   (C8_dispatch ⟨2024, 3, 7, 14, 30, 0, 0⟩ (fun _ => some "deadbeef") (some "push")
      (.obj []) ⟨.null, .null, .null, .null, .null, .null⟩ "deadbeef" "star").2.1 rfl,
   (C8_dispatch ⟨2024, 3, 7, 14, 30, 0, 0⟩ (fun _ => some "deadbeef") (some "star")
      (.obj [("zen", .str "keep it simple")]) ⟨.null, .null, .null, .null, .null, .null⟩
      "deadbeef" "star").2.2.1 rfl (by decide) (by decide),
   (C8_dispatch ⟨2024, 3, 7, 14, 30, 0, 0⟩ (fun _ => some "deadbeef") none
      (.obj [("zen", .str "keep it simple")]) ⟨.null, .null, .null, .null, .null, .null⟩
      "deadbeef" "star").2.2.2.1 rfl,
   (C8_dispatch ⟨2024, 3, 7, 14, 30, 0, 0⟩ (fun _ => some "deadbeef") (some "push")
      (.obj [("zen", .str "keep it simple")]) ⟨.null, .null, .null, .null, .null, .null⟩
      "deadbeef" "star").2.2.2.2.1 rfl rfl,
   (C8_dispatch ⟨2024, 3, 7, 14, 30, 0, 0⟩ (fun _ => some "deadbeef") (some "push")
      (.obj [("commits", .arr [.obj [("id", .str "c1")]]), ("ref", .str "refs/heads/main"),
        ("pusher", .obj [("name", .str "alice")])])
      ⟨.str "c1", .str "alice", .str "PUSH", .null, .str "main",
        .str "2024-03-07T14:30:00"⟩ "deadbeef" "star").2.2.2.2.2.1 rfl rfl rfl,
   (C8_dispatch ⟨2024, 3, 7, 14, 30, 0, 0⟩ (fun _ => none) (some "push")
      (.obj [("commits", .arr [.obj [("id", .str "c1")]]), ("ref", .str "refs/heads/main"),
        ("pusher", .obj [("name", .str "alice")])])
      ⟨.str "c1", .str "alice", .str "PUSH", .null, .str "main",
        .str "2024-03-07T14:30:00"⟩ "deadbeef" "star").2.2.2.2.2.2 rfl rfl rfl⟩

/-- C9: every stored event renders by the per-action template around the
rendered timestamp — PUSH, PULL_REQUEST, MERGE and the defensive fallthrough
for any other action — where parseable ISO-8601 timestamps (a literal `Z`
tolerated as the `+00:00` offset) render as
`<day> <Month> <year> - <hour>:<minute> <AM/PM> UTC` and unparseable ones
fall back to the raw stored string; the spec's example message is
reproduced. -/
theorem C9_message_format (author toB fromB ts : String) :
    (format_event_message [("author", .str author), ("action", .str "PUSH"),
        ("to_branch", .str toB), ("from_branch", .str fromB), ("timestamp", .str ts)] =
      "\"" ++ author ++ "\" pushed to \"" ++ toB ++ "\" on " ++
        pyStr (format_timestamp (.str ts))) ∧
    (format_event_message [("author", .str author), ("action", .str "PULL_REQUEST"),
        ("to_branch", .str toB), ("from_branch", .str fromB), ("timestamp", .str ts)] =
      "\"" ++ author ++ "\" submitted a pull request from \"" ++ fromB ++ "\" to \"" ++
        toB ++ "\" on " ++ pyStr (format_timestamp (.str ts))) ∧
    (format_event_message [("author", .str author), ("action", .str "MERGE"),
        ("to_branch", .str toB), ("from_branch", .str fromB), ("timestamp", .str ts)] =
      "\"" ++ author ++ "\" merged branch \"" ++ fromB ++ "\" to \"" ++ toB ++
        "\" on " ++ pyStr (format_timestamp (.str ts))) ∧
    (∀ other : String, other ≠ "PUSH" → other ≠ "PULL_REQUEST" → other ≠ "MERGE" →
      format_event_message [("author", .str author), ("action", .str other),
          ("to_branch", .str toB), ("from_branch", .str fromB), ("timestamp", .str ts)] =
        "\"" ++ author ++ "\" performed " ++ other ++ " on " ++
          pyStr (format_timestamp (.str ts))) ∧
    (∀ dt : PyDateTime, fromisoformat (pyReplace ts "Z" "+00:00") = some dt →
      format_timestamp (.str ts) = .str (strftimeDisplay dt)) ∧
    (fromisoformat (pyReplace ts "Z" "+00:00") = none →
      format_timestamp (.str ts) = .str ts) ∧
    (format_timestamp (.str "2024-03-07T14:30:00") =
      .str "07 March 2024 - 02:30 PM UTC") ∧
    (format_timestamp (.str "2024-03-07T14:30:00Z") =
      .str "07 March 2024 - 02:30 PM UTC") ∧
    (format_event_message [("author", .str "alice"), ("action", .str "PUSH"),
        ("to_branch", .str "main"), ("timestamp", .str "2024-03-07T14:30:00")] =
      "\"alice\" pushed to \"main\" on 07 March 2024 - 02:30 PM UTC") := by
  refine ⟨rfl, rfl, rfl, ?_, ?_, ?_, rfl, rfl, rfl⟩
  · intro other h1 h2 h3
    simp [format_event_message, Json.eqStr, h1, h2, h3, pyStr, List.lookup,
      beq_iff_eq]
  · intro dt hdt
    simp [format_timestamp, hdt]
  · intro hnone
    simp [format_timestamp, hnone]

/-- C9 witness: the fallthrough template at the non-enum action `DEPLOY`,
the successful timestamp rendering at the spec's example instant, and the
raw fallback at an unparseable timestamp. -/
theorem C9_witness :
    (format_event_message [("author", .str "alice"), ("action", .str "DEPLOY"),
        ("to_branch", .str "main"), ("from_branch", .str "dev"),
        ("timestamp", .str "2024-03-07T14:30:00")] =
      "\"alice\" performed DEPLOY on 07 March 2024 - 02:30 PM UTC") ∧
    (format_timestamp (.str "2024-03-07T14:30:00") =
      .str (strftimeDisplay ⟨2024, 3, 7, 14, 30, 0, 0⟩)) ∧
    (format_timestamp (.str "not-a-date") = .str "not-a-date") :=
  ⟨(C9_message_format "alice" "main" "dev" "2024-03-07T14:30:00").2.2.2.1 "DEPLOY"
      (by decide) (by decide) (by decide),
   (C9_message_format "alice" "main" "dev" "2024-03-07T14:30:00").2.2.2.2.1
      ⟨2024, 3, 7, 14, 30, 0, 0⟩ (by decide),
   (C9_message_format "alice" "main" "dev" "not-a-date").2.2.2.2.2.1 (by decide)⟩

/-- C10: when the timestamp argument of the constructor is falsy (`None` or
the empty string), the constructed event's timestamp is the ISO-8601 form of
the current UTC time; consequently every event constructed with a
string-or-`None` timestamp argument carries a non-empty timestamp string. -/
theorem C10_default_timestamp (now : PyDateTime) (rid author action toB fromB ts : Json)
    (e : GitHubEvent) (h : GitHubEvent.init now rid author action toB fromB ts = .ok e) :
    (ts.isTruthy = false → e.timestamp = .str now.isoformat) ∧
    ((ts = .null ∨ ∃ s : String, ts = .str s) →
      ∃ s : String, e.timestamp = .str s ∧ s ≠ "") := by
  unfold GitHubEvent.init at h
  cases hv : Json.inStrList action VALID_ACTIONS with
  | false => simp [hv] at h
  | true =>
    simp only [hv, if_true] at h
    rw [Except.ok.injEq] at h
    subst h
    constructor
    · intro hts
      simp [hts]
    · rintro (rfl | ⟨s, rfl⟩)
      · exact ⟨now.isoformat, by simp [Json.isTruthy], PyDateTime.isoformat_ne_empty now⟩
      · by_cases hs : s = ""
        · subst hs
          exact ⟨now.isoformat, by simp [Json.isTruthy], PyDateTime.isoformat_ne_empty now⟩
        · refine ⟨s, ?_, hs⟩
          simp [Json.isTruthy, bne_iff_ne, hs]

/-- C10 witness: constructing with a `None` timestamp at a concrete current
time stores that time's ISO form, which is non-empty. -/
theorem C10_witness :
    GitHubEvent.timestamp ⟨.str "r", .str "a", .str "PUSH", .null, .str "main",
        .str "2024-03-07T14:30:00"⟩ =
      .str (PyDateTime.isoformat ⟨2024, 3, 7, 14, 30, 0, 0⟩) ∧
    ∃ s : String, GitHubEvent.timestamp ⟨.str "r", .str "a", .str "PUSH", .null,
        .str "main", .str "2024-03-07T14:30:00"⟩ = .str s ∧ s ≠ "" :=
  ⟨(C10_default_timestamp ⟨2024, 3, 7, 14, 30, 0, 0⟩ (.str "r") (.str "a") (.str "PUSH")
      (.str "main") .null .null ⟨.str "r", .str "a", .str "PUSH", .null, .str "main",
        .str "2024-03-07T14:30:00"⟩ rfl).1 rfl,
   (C10_default_timestamp ⟨2024, 3, 7, 14, 30, 0, 0⟩ (.str "r") (.str "a") (.str "PUSH")
      (.str "main") .null .null ⟨.str "r", .str "a", .str "PUSH", .null, .str "main",
        .str "2024-03-07T14:30:00"⟩ rfl).2 (Or.inl rfl)⟩
